import Mathlib

/-!
Verification development for the agentic-workflow repository: a shallow
embedding of its intent-routing and action-dispatch core (Gemini client with
retry and model fallback, regex fallback classifier, GitHub OAuth token store,
GitHub action dispatcher, crypto agent) together with theorems settling the
behavioural claims about that core.  External HTTP services are modelled as
behaviour oracles; all asynchronous code is single-threaded in the source, so
it is embedded as plain sequential state-passing functions.
-/

namespace AW

/-- Substring test modelling JavaScript `String.prototype.includes`:
`isPrefixOfCs pat s` is true when `pat` is a literal prefix of `s`. -/
def isPrefixOfCs : List Char → List Char → Bool
  | [], _ => true
  | _ :: _, [] => false
  | p :: ps, c :: cs => p = c && isPrefixOfCs ps cs

/-- Scan every suffix for the pattern, as `includes` does. -/
def containsSubCs (pat : List Char) : List Char → Bool
  | [] => isPrefixOfCs pat []
  | c :: cs => isPrefixOfCs pat (c :: cs) || containsSubCs pat cs

/-- `containsSub s pat` models `s.includes(pat)` from JavaScript. -/
def containsSub (s pat : String) : Bool :=
  containsSubCs pat.toList s.toList

/-! ## Generative-Text Client with retry and model fallback
Embeds `callGeminiWithRetry` of `geminiReporter` (src/unnamed/part_002,
lines 51-82).  The remote Gemini call is an oracle
`beh : model name → attempt number → Except errorMessage text`; the client
returns the final outcome together with the ordered list of attempts made
(model name, attempt number) and the ordered list of backoff delays (ms)
that were awaited. -/

def MODELS : List String := [("gemini-2.5-flash"), ("gemini-2.5-flash-lite"), ("gemini-3-flash")]

def MAX_RETRIES : Nat := 3

def BASE_DELAY_MS : Nat := 5000

structure GeminiResult where
  success : Bool
  text : String
  model : String
deriving DecidableEq

/-- Rate-limit classification of an error message, from
`errMsg.includes('429') || errMsg.includes('Too Many Requests') || errMsg.includes('quota')`. -/
def is429 (errMsg : String) : Bool :=
  containsSub errMsg ("429") || containsSub errMsg ("Too Many Requests") ||
    containsSub errMsg ("quota")

/-- The inner `for attempt = 1..MAX_RETRIES` loop of `callGeminiWithRetry` for
one model.  `fuel` counts the remaining loop iterations (the loop guard);
`attempt` is the JavaScript loop counter.  Result `Except.ok none` means the
loop was left by `break` (or ran out), i.e. the next model should be tried;
`Except.ok (some r)` is a successful return; `Except.error msg` is a thrown
non-rate-limit error.  The second component collects the attempts made and the
delays awaited, in order. -/
def retryLoop (beh : String → Nat → Except String String) (modelName : String) :
    Nat → Nat → Except String (Option GeminiResult) × (List (String × Nat) × List Nat)
  | _, 0 => (Except.ok none, ([], []))
  | attempt, fuel + 1 =>
    match beh modelName attempt with
    | Except.ok text =>
      (Except.ok (some { success := true, text := text, model := modelName }),
       ([(modelName, attempt)], []))
    | Except.error msg =>
      if is429 msg = true ∧ attempt < MAX_RETRIES then
        let r := retryLoop beh modelName (attempt + 1) fuel
        (r.1, ((modelName, attempt) :: r.2.1, BASE_DELAY_MS * attempt :: r.2.2))
      else if is429 msg = true then
        (Except.ok none, ([(modelName, attempt)], []))
      else
        (Except.error msg, ([(modelName, attempt)], []))

def exhaustedMsg : String :=
  "All Gemini models exhausted their quota. Please wait or upgrade your plan."

/-- The outer `for modelName of MODELS` loop of `callGeminiWithRetry`. -/
def geminiChain (beh : String → Nat → Except String String) :
    List String → Except String GeminiResult × (List (String × Nat) × List Nat)
  | [] => (Except.error exhaustedMsg, ([], []))
  | m :: rest =>
    let r := retryLoop beh m 1 MAX_RETRIES
    match r.1 with
    | Except.ok (some res) => (Except.ok res, r.2)
    | Except.ok none =>
      let r2 := geminiChain beh rest
      (r2.1, (r.2.1 ++ r2.2.1, r.2.2 ++ r2.2.2))
    | Except.error msg => (Except.error msg, r.2)

/-- `callGeminiWithRetry` of src/unnamed/part_002. -/
def callGeminiWithRetry (beh : String → Nat → Except String String) :
    Except String GeminiResult × (List (String × Nat) × List Nat) :=
  geminiChain beh MODELS

/-! ## The GitHub agent's own Gemini helper
Embeds `callGemini` of src/unnamed/part_001 (lines 29-43).  Unlike
`callGeminiWithRetry`, it catches every error and falls through to the next
model in the chain.  The second component is the ordered list of models
attempted. -/

def MODEL_CHAIN : List String :=
  [("gemini-2.5-flash"), ("gemini-2.5-flash-lite"), ("gemini-3-flash")]

def geminiSimpleChain (beh : String → Except String String) :
    List String → Except String String × List String
  | [] => (Except.error ("All Gemini models failed"), [])
  | m :: rest =>
    match beh m with
    | Except.ok t => (Except.ok t, [m])
    | Except.error _ =>
      let r := geminiSimpleChain beh rest
      (r.1, m :: r.2)

/-- `callGemini` of src/unnamed/part_001: on any error (rate-limit or not)
it `continue`s with the next model. -/
def callGemini (beh : String → Except String String) :
    Except String String × List String :=
  geminiSimpleChain beh MODEL_CHAIN

/-! ## Intent classifier (`parseUserIntent`, src/unnamed/part_001 lines 285-389)
The regex fallback path is embedded as executable character-level matchers for
the three source regexes (the Instagram URL regex with the `g` and `i` flags,
and the two case-insensitive word-boundary keyword alternations).  JavaScript
`\s` also matches some rare Unicode space characters which the word lists and
URL bodies here never contain; the embedding covers its ASCII members. -/

/-- JavaScript `\w` word character: `[A-Za-z0-9_]`. -/
def isWordChar (c : Char) : Bool := c.isAlpha || c.isDigit || c = '_'

/-- ASCII members of JavaScript `\s`. -/
def isJsSpace (c : Char) : Bool :=
  c = ' ' || c = '\t' || c = '\n' || c = '\r' || c = Char.ofNat 11 || c = Char.ofNat 12

/-- Case-insensitive literal match (`i` flag): the pattern is given lowercase
and each subject character is lowered before comparison.  Returns the suffix
after the matched literal. -/
def stripCI : List Char → List Char → Option (List Char)
  | [], s => some s
  | _ :: _, [] => none
  | p :: ps, c :: cs => if c.toLower = p then stripCI ps cs else none

/-- Greedy optional group `(pat)?` with backtracking into the continuation
`k`, as a backtracking regex engine evaluates it. -/
def optPart (pat : List Char) (s : List Char) (k : List Char → Option (List Char)) :
    Option (List Char) :=
  match stripCI pat s with
  | some s2 =>
    match k s2 with
    | some r => some r
    | none => k s
  | none => k s

/-- Character class `[^\s"'<>]` of the Instagram URL regex. -/
def isUrlChar (c : Char) : Bool :=
  !(isJsSpace c) && c ≠ Char.ofNat 34 && c ≠ Char.ofNat 39 && c ≠ '<' && c ≠ '>'

/-- Length of the greedy `[^\s"'<>]*` match at the head of the list. -/
def takeUrlChars : List Char → Nat
  | [] => 0
  | c :: cs => if isUrlChar c then takeUrlChars cs + 1 else 0

/-- Try `https?:\/\/(?:www\.)?instagram\.com\/[^\s"'<>]+` (flag `i`) at the
start of `s`; returns the length of the (greedy) match. -/
def matchInstaAt (s : List Char) : Option Nat :=
  match stripCI (String.toList ("http")) s with
  | none => none
  | some s1 =>
    match optPart (String.toList ("s")) s1 (fun s2 =>
      match stripCI (String.toList ("://")) s2 with
      | none => none
      | some s3 =>
        optPart (String.toList ("www.")) s3 (fun s4 =>
          match stripCI (String.toList ("instagram.com/")) s4 with
          | none => none
          | some s5 =>
            let n := takeUrlChars s5
            if n = 0 then none else some (s5.drop n))) with
    | none => none
    | some rest => some (s.length - rest.length)

/-- Global scan (`g` flag): left to right, non-overlapping, resuming after
each match, as `String.prototype.match` with a global regex.  Every match here
is nonempty, so `fuel = length of the subject` suffices. -/
def scanInstaAux : Nat → List Char → List String
  | 0, _ => []
  | _, [] => []
  | fuel + 1, c :: cs =>
    match matchInstaAt (c :: cs) with
    | some n => String.mk ((c :: cs).take n) :: scanInstaAux fuel ((c :: cs).drop n)
    | none => scanInstaAux fuel cs

/-- `userPrompt.match(instaRegex) || []` of the fallback path. -/
def instaUrlMatches (userPrompt : String) : List String :=
  scanInstaAux userPrompt.length userPrompt.toList

/-- One alternative of a keyword alternation: a literal word, or two literals
separated by `\s*` (for `pull\s*request` and `market\s*cap`). -/
inductive KwPat where
  | lit (w : String)
  | twoWords (a b : String)
deriving DecidableEq

def dropJsSpaces : List Char → List Char
  | [] => []
  | c :: cs => if isJsSpace c then dropJsSpaces cs else c :: cs

/-- Match one alternative at the head of the list (case-insensitively);
returns the suffix after the match.  `\s*` is greedy and its continuation
starts with a non-space letter, so greedy matching is exact. -/
def matchKwPat : KwPat → List Char → Option (List Char)
  | KwPat.lit w, s => stripCI (w.toList.map Char.toLower) s
  | KwPat.twoWords a b, s =>
    match stripCI (a.toList.map Char.toLower) s with
    | none => none
    | some s1 => stripCI (b.toList.map Char.toLower) (dropJsSpaces s1)

/-- Does some alternative match at this position with a word boundary on its
right?  (Every alternative begins with a letter, so the left boundary is the
caller's job.) -/
def kwHitHere (pats : List KwPat) (s : List Char) : Bool :=
  pats.any (fun p =>
    match matchKwPat p s with
    | none => false
    | some [] => true
    | some (d :: _) => !(isWordChar d))

/-- `regex.test(s)` for `\b(alt|...)\b` with flag `i`: scan every position,
requiring a non-word character (or the string start) on the left. -/
def kwTestAux (pats : List KwPat) : List Char → Bool → Bool
  | [], _ => false
  | c :: cs, prevWord =>
    ((!prevWord) && kwHitHere pats (c :: cs)) || kwTestAux pats cs (isWordChar c)

def kwTest (pats : List KwPat) (s : String) : Bool := kwTestAux pats s.toList false

/-- Alternatives of `githubKeywords`, in source order. -/
def githubKwPats : List KwPat :=
  [KwPat.lit ("github"), KwPat.lit ("repo"), KwPat.lit ("repository"), KwPat.lit ("repos"),
   KwPat.lit ("repositories"), KwPat.lit ("issue"), KwPat.lit ("issues"),
   KwPat.twoWords ("pull") ("request"), KwPat.lit ("PR"), KwPat.lit ("star"),
   KwPat.lit ("fork"), KwPat.lit ("commit"), KwPat.lit ("push"), KwPat.lit ("branch")]

/-- Alternatives of `cryptoKeywords`, in source order. -/
def cryptoKwPats : List KwPat :=
  [KwPat.lit ("crypto"), KwPat.lit ("bitcoin"), KwPat.lit ("btc"), KwPat.lit ("ethereum"),
   KwPat.lit ("eth"), KwPat.lit ("solana"), KwPat.lit ("sol"), KwPat.lit ("coin"),
   KwPat.lit ("token"), KwPat.lit ("price"), KwPat.twoWords ("market") ("cap"),
   KwPat.lit ("dogecoin"), KwPat.lit ("doge"), KwPat.lit ("xrp"), KwPat.lit ("cardano"),
   KwPat.lit ("ada")]

/-- The `ParsedIntent` record returned by `parseUserIntent`.  Absent optional
JavaScript fields are `none`; `action` is `null`able in the source. -/
structure ParsedIntent where
  success : Bool
  platform : String
  urls : List String
  action : Option String
  userQuery : String
  error : Option String := none
  fallback : Option Bool := none
deriving DecidableEq

/-- `x || dflt` for a possibly-absent string: `undefined`, `null` and the
empty string are falsy. -/
def jsOrStr (v : Option String) (dflt : String) : String :=
  match v with
  | none => dflt
  | some s => if s = "" then dflt else s

/-- The shape Gemini's JSON reply is read with on the primary path of
`parseUserIntent`; every field may be absent. -/
structure GeminiParsed where
  platform : Option String := none
  urls : Option (List String) := none
  action : Option String := none
  userQuery : Option String := none
deriving DecidableEq

/-- The `return` on the primary (generative) path of `parseUserIntent`:
`platform: parsed.platform || 'unknown'`, `urls: parsed.urls || []`,
`action: parsed.action || 'analyze'`, `userQuery: parsed.userQuery || userPrompt`. -/
def parseIntentSuccess (userPrompt : String) (parsed : GeminiParsed) : ParsedIntent :=
  { success := true,
    platform := jsOrStr parsed.platform ("unknown"),
    urls := parsed.urls.getD [],
    action := some (jsOrStr parsed.action ("analyze")),
    userQuery := jsOrStr parsed.userQuery userPrompt }

/-- The regex fallback path of `parseUserIntent` (the `catch` block,
src/unnamed/part_001 lines 333-388). -/
def parseIntentFallback (userPrompt : String) (errMsg : String) : ParsedIntent :=
  let instaUrls := instaUrlMatches userPrompt
  let isGitHub := kwTest githubKwPats userPrompt
  let isCrypto := kwTest cryptoKwPats userPrompt
  if instaUrls.length > 0 then
    { success := true, platform := "instagram", urls := instaUrls,
      action := some ("analyze"), userQuery := userPrompt, fallback := some true }
  else if isGitHub then
    { success := true, platform := "github", urls := [],
      action := some ("github_action"), userQuery := userPrompt, fallback := some true }
  else if isCrypto then
    { success := true, platform := "crypto", urls := [],
      action := some ("crypto_action"), userQuery := userPrompt, fallback := some true }
  else
    { success := false, error := some errMsg, platform := "unknown", urls := [],
      action := none, userQuery := userPrompt }

/-- `parseUserIntent`: the generative call plus JSON parse is the oracle
`gem` (its `Except.error` is the thrown error's message, which routes to the
fallback path). -/
def parseUserIntent (userPrompt : String) (gem : Except String GeminiParsed) : ParsedIntent :=
  match gem with
  | Except.ok parsed => parseIntentSuccess userPrompt parsed
  | Except.error errMsg => parseIntentFallback userPrompt errMsg

/-! ## Authorization State (src/agents/githubOAuthAgent.ts)
The in-memory `tokenStore : Map<string, TokenData>` is embedded as a function
store with `Map.set/get/has/delete` semantics.  `new Date().toISOString()` is
the explicit parameter `now`. -/

structure TokenData where
  accessToken : String
  tokenType : String
  scope : String
  connectedAt : Option String := none
deriving DecidableEq

def Store : Type := String → Option TokenData

/-- `storeToken(userId, tokenData)`: spreads the token data and overwrites
`connectedAt` with the current time. -/
def storeToken (userId : String) (tokenData : TokenData) (now : String) (st : Store) : Store :=
  fun k => if k = userId then some { tokenData with connectedAt := some now } else st k

/-- `getToken(userId)`. -/
def getToken (userId : String) (st : Store) : Option TokenData := st userId

/-- `isConnected(userId)`: `tokenStore.has(userId)`. -/
def isConnected (userId : String) (st : Store) : Bool := (st userId).isSome

/-- `disconnect(userId)`: `tokenStore.delete(userId)`. -/
def disconnect (userId : String) (st : Store) : Store :=
  fun k => if k = userId then none else st k

/-- The OAuth app configuration read from the environment. -/
structure OAuthEnv where
  clientId : String
  redirectUri : String
deriving DecidableEq

/-- `getAuthorizationUrl(userId)`: the GitHub authorize URL with
`client_id`, `redirect_uri`, `scope` and `state = userId` (the
percent-encoding `URLSearchParams` applies is not modelled; no claim
inspects the URL text). -/
def getAuthorizationUrl (env : OAuthEnv) (userId : String) : String :=
  "https://github.com/login/oauth/authorize?client_id=" ++ env.clientId ++
    "&redirect_uri=" ++ env.redirectUri ++
    "&scope=repo user read:org workflow&state=" ++ userId

/-! ## GitHub provider payloads
Provider JSON replies are dynamic values the dispatcher only reads fields
from to format summaries; they are embedded as a small JSON-like inductive
with JavaScript member access, truthiness and template interpolation. -/

inductive GhData where
  | nullV
  | strV (s : String)
  | numV (n : Int)
  | boolV (b : Bool)
  | arrV (xs : List GhData)
  | objV (fields : List (String × GhData))

/-- JavaScript member access `d[key]`, yielding `undefined` when absent or
when `d` is not an object. -/
def ghGet (d : GhData) (key : String) : GhData :=
  match d with
  | GhData.objV fields =>
    match fields.find? (fun f => f.1 = key) with
    | some f => f.2
    | none => GhData.nullV
  | _ => GhData.nullV

/-- JavaScript truthiness. -/
def ghTruthy : GhData → Bool
  | GhData.nullV => false
  | GhData.strV s => !(s = "")
  | GhData.numV n => !(n = 0)
  | GhData.boolV b => b
  | GhData.arrV _ => true
  | GhData.objV _ => true

/-- Template-literal interpolation of a field value.  Number formatting and
array/object stringification are displayed via `toString`; no claim inspects
these renderings. -/
def ghDisplay : GhData → String
  | GhData.nullV => "undefined"
  | GhData.strV s => s
  | GhData.numV n => toString n
  | GhData.boolV b => if b then "true" else "false"
  | GhData.arrV _ => "[array]"
  | GhData.objV _ => "[object Object]"

/-- `d || dflt` inside a template literal. -/
def ghOr (d : GhData) (dflt : String) : String :=
  if ghTruthy d then ghDisplay d else dflt

/-- `.map` / `.length` on a payload the code treats as an array. -/
def ghArr (d : GhData) : List GhData :=
  match d with
  | GhData.arrV xs => xs
  | _ => []

/-! ## GitHub API calls as a state machine
The oracle decides each HTTP call's outcome by its position in the dispatch's
call sequence (so a deterministic environment for the whole turn); the state
carries the token store and the ordered trace of provider calls made. -/

inductive ApiOutcome where
  | okData (d : GhData)
  | http401
  | failMsg (msg : String)

/-- Behaviour of the external GitHub REST API: `api` answers authenticated
`githubAPI` calls, `pub` answers unauthenticated `axios.get` calls; both are
keyed by the call counter, endpoint (and method). -/
structure GhBehavior where
  api : Nat → String → String → ApiOutcome
  pub : Nat → String → ApiOutcome

structure CallRec where
  endpoint : String
  method : String
  authed : Bool
deriving DecidableEq

structure CallSt where
  store : Store
  calls : List CallRec

def notConnectedMsg : String :=
  "GitHub not connected. Please connect your GitHub account first."

def tokenExpiredMsg : String :=
  "GitHub token expired. Please reconnect your GitHub account."

/-- `githubAPI(endpoint, options, userId)` (githubOAuthAgent.ts lines
119-150): missing token throws before any HTTP call; a 401 response deletes
the Credential Record (`disconnect`) and throws the token-expired message;
any other failure is rethrown. -/
def githubAPI (beh : GhBehavior) (endpoint method userId : String) (s : CallSt) :
    Except String GhData × CallSt :=
  match s.store userId with
  | none => (Except.error notConnectedMsg, s)
  | some _ =>
    let s2 : CallSt :=
      { s with calls := s.calls ++ [{ endpoint := endpoint, method := method, authed := true }] }
    match beh.api s.calls.length endpoint method with
    | ApiOutcome.okData d => (Except.ok d, s2)
    | ApiOutcome.http401 =>
      (Except.error tokenExpiredMsg, { s2 with store := disconnect userId s2.store })
    | ApiOutcome.failMsg m => (Except.error m, s2)

/-- An unauthenticated `axios.get` against api.github.com (no token, no
special 401 handling; axios failures carry their own message). -/
def publicAPI (beh : GhBehavior) (endpoint : String) (s : CallSt) :
    Except String GhData × CallSt :=
  let s2 : CallSt :=
    { s with calls := s.calls ++ [{ endpoint := endpoint, method := "GET", authed := false }] }
  match beh.pub s.calls.length endpoint with
  | ApiOutcome.okData d => (Except.ok d, s2)
  | ApiOutcome.http401 => (Except.error ("Request failed with status code 401"), s2)
  | ApiOutcome.failMsg m => (Except.error m, s2)

/-! High-level actions of githubOAuthAgent.ts.  Request bodies and query
parameters only shape the remote reply, which the oracle already decides, so
they are not carried on the call record beyond endpoint and method. -/

def getUser (beh : GhBehavior) (userId : String) (s : CallSt) :
    Except String GhData × CallSt :=
  githubAPI beh ("/user") ("GET") userId s

def listRepos (beh : GhBehavior) (userId : String) (s : CallSt) :
    Except String GhData × CallSt :=
  githubAPI beh ("/user/repos") ("GET") userId s

def createRepo (beh : GhBehavior) (name : String) (userId : String) (s : CallSt) :
    Except String GhData × CallSt :=
  githubAPI beh ("/user/repos") ("POST") userId s

/-- `starRepo` builds its own result object after the PUT succeeds. -/
def starRepo (beh : GhBehavior) (owner repo userId : String) (s : CallSt) :
    Except String GhData × CallSt :=
  match githubAPI beh ("/user/starred/" ++ owner ++ "/" ++ repo) ("PUT") userId s with
  | (Except.ok _, s1) =>
    (Except.ok (GhData.objV [("starred", GhData.boolV true),
                            ("repo", GhData.strV (owner ++ "/" ++ repo))]), s1)
  | (Except.error m, s1) => (Except.error m, s1)

def createIssue (beh : GhBehavior) (owner repo title body userId : String) (s : CallSt) :
    Except String GhData × CallSt :=
  githubAPI beh ("/repos/" ++ owner ++ "/" ++ repo ++ "/issues") ("POST") userId s

def listIssues (beh : GhBehavior) (owner repo userId : String) (s : CallSt) :
    Except String GhData × CallSt :=
  githubAPI beh ("/repos/" ++ owner ++ "/" ++ repo ++ "/issues") ("GET") userId s

def createPullRequest (beh : GhBehavior) (owner repo title head base body userId : String)
    (s : CallSt) : Except String GhData × CallSt :=
  githubAPI beh ("/repos/" ++ owner ++ "/" ++ repo ++ "/pulls") ("POST") userId s

def getRepo (beh : GhBehavior) (owner repo userId : String) (s : CallSt) :
    Except String GhData × CallSt :=
  githubAPI beh ("/repos/" ++ owner ++ "/" ++ repo) ("GET") userId s

def getPublicUser (beh : GhBehavior) (username : String) (s : CallSt) :
    Except String GhData × CallSt :=
  publicAPI beh ("/users/" ++ username) s

def listPublicRepos (beh : GhBehavior) (username : String) (s : CallSt) :
    Except String GhData × CallSt :=
  publicAPI beh ("/users/" ++ username ++ "/repos") s

structure FileEntry where
  path : String
  content : String
deriving DecidableEq

structure PushResult where
  path : String
  success : Bool
  url : Option String := none
  error : Option String := none
deriving DecidableEq

/-- `createOrUpdateFile`: a GET for the existing file whose failure is
swallowed (it only supplies the `sha` request-body field, which the oracle
already accounts for), then the PUT whose failure propagates. -/
def createOrUpdateFile (beh : GhBehavior) (owner repo path content message userId : String)
    (s : CallSt) : Except String GhData × CallSt :=
  let r1 := githubAPI beh ("/repos/" ++ owner ++ "/" ++ repo ++ "/contents/" ++ path)
    ("GET") userId s
  githubAPI beh ("/repos/" ++ owner ++ "/" ++ repo ++ "/contents/" ++ path)
    ("PUT") userId r1.2

/-- The per-file result object pushed by `pushProject`'s loop body. -/
def pushEntry (path : String) (r : Except String GhData) : PushResult :=
  match r with
  | Except.ok d =>
    { path := path, success := true,
      url := match ghGet (ghGet d ("content")) ("html_url") with
             | GhData.strV u => some u
             | _ => none }
  | Except.error m => { path := path, success := false, error := some m }

/-- `pushProject` (githubOAuthAgent.ts lines 215-235): sequential `for` loop,
one `createOrUpdateFile` per file, each failure caught and recorded without
aborting the loop. -/
def pushProject (beh : GhBehavior) (owner repo : String) (files : List FileEntry)
    (commitMessage userId : String) (s : CallSt) : List PushResult × CallSt :=
  match files with
  | [] => ([], s)
  | f :: rest =>
    let r := createOrUpdateFile beh owner repo f.path f.content commitMessage userId s
    let r2 := pushProject beh owner repo rest commitMessage userId r.2
    (pushEntry f.path r.1 :: r2.1, r2.2)

/-! ## GitHub agent dispatcher (`runGitHubAgent`, src/unnamed/part_001 lines 49-261) -/

/-- The parsed `GitHubIntent` parameters; absent JSON fields are `none`.
`private` is a Lean keyword, hence `isPrivate` (as the destructuring alias
in the source).  An absent `files` is modelled as the empty list. -/
structure GhParams where
  owner : Option String := none
  repo : Option String := none
  title : Option String := none
  body : Option String := none
  name : Option String := none
  description : Option String := none
  isPrivate : Option Bool := none
  head : Option String := none
  base : Option String := none
  files : List FileEntry := []
  username : Option String := none
deriving DecidableEq

structure GitHubIntent where
  action : String
  params : GhParams
deriving DecidableEq

inductive RawData where
  | data (d : GhData)
  | pushResults (rs : List PushResult)

/-- The `GitHubAgentResult` envelope.  A JavaScript field left out of the
result object is `undefined`; for the boolean `needsAuth` that is falsy,
modelled as `false`. -/
structure GitHubAgentResult where
  success : Bool
  action : Option String := none
  summary : Option String := none
  rawData : Option RawData := none
  error : Option String := none
  needsAuth : Bool := false
  authUrl : Option String := none
  message : Option String := none

def PUBLIC_ACTIONS : List String := [("list_user_repos"), ("get_user_profile")]

/-- Template interpolation of a possibly-absent string parameter
(`undefined` stringifies as "undefined"). -/
def jstr : Option String → String
  | some s => s
  | none => "undefined"

/-- Falsiness test of the `if (!username)` validations. -/
def jsFalsyStr : Option String → Bool
  | none => true
  | some s => s = ""

/-- The `success: true` result object built at the end of the `switch`. -/
def okRes (action summary : String) (raw : RawData) : GitHubAgentResult :=
  { success := true, action := some action, summary := some summary, rawData := some raw }

/-- A `success: false` result object with an error message. -/
def failRes (e : String) : GitHubAgentResult :=
  { success := false, error := some e }

def profileSummary (d : GhData) : String :=
  "👤 **" ++ ghDisplay (ghGet d ("login")) ++ "** (" ++ ghOr (ghGet d ("name")) ("No name") ++
    ")\n" ++
  "   📦 " ++ ghDisplay (ghGet d ("public_repos")) ++ " repos | 👥 " ++
    ghDisplay (ghGet d ("followers")) ++ " followers\n" ++
  "   🔗 " ++ ghDisplay (ghGet d ("html_url"))

def repoLine (i : Nat) (r : GhData) : String :=
  "   " ++ toString (i + 1) ++ ". **" ++ ghDisplay (ghGet r ("name")) ++ "** " ++
    (if ghTruthy (ghGet r ("private")) then "🔒" else "🌐") ++ " — " ++
    ghOr (ghGet r ("description")) ("No description") ++ "\n" ++
  "      ⭐ " ++ ghDisplay (ghGet r ("stargazers_count")) ++ " | 🍴 " ++
    ghDisplay (ghGet r ("forks_count")) ++ " | 🔗 " ++ ghDisplay (ghGet r ("html_url"))

def listReposSummary (d : GhData) : String :=
  "📦 Your repositories (latest " ++ toString (ghArr d).length ++ "):\n" ++
  String.intercalate ("\n") ((ghArr d).enum.map (fun pr => repoLine pr.1 pr.2))

def publicRepoLine (i : Nat) (r : GhData) : String :=
  "   " ++ toString (i + 1) ++ ". **" ++ ghDisplay (ghGet r ("name")) ++ "** 🌐 — " ++
    ghOr (ghGet r ("description")) ("No description") ++ "\n" ++
  "      ⭐ " ++ ghDisplay (ghGet r ("stargazers_count")) ++ " | 🍴 " ++
    ghDisplay (ghGet r ("forks_count")) ++ " | 🔤 " ++ ghOr (ghGet r ("language")) ("N/A") ++
    " | 🔗 " ++ ghDisplay (ghGet r ("html_url"))

def listUserReposSummary (username : String) (d : GhData) : String :=
  if (ghArr d).length = 0 then
    "📦 **" ++ username ++ "** has no public repositories."
  else
    "📦 Public repos of **" ++ username ++ "** (" ++ toString (ghArr d).length ++ "):\n" ++
    String.intercalate ("\n") ((ghArr d).enum.map (fun pr => publicRepoLine pr.1 pr.2))

def publicProfileSummary (d : GhData) : String :=
  "👤 **" ++ ghDisplay (ghGet d ("login")) ++ "** (" ++ ghOr (ghGet d ("name")) ("No name") ++
    ")\n" ++
  "   📝 " ++ ghOr (ghGet d ("bio")) ("No bio") ++ "\n" ++
  "   📦 " ++ ghDisplay (ghGet d ("public_repos")) ++ " public repos | 👥 " ++
    ghDisplay (ghGet d ("followers")) ++ " followers | 👣 " ++
    ghDisplay (ghGet d ("following")) ++ " following\n" ++
  "   📍 " ++ ghOr (ghGet d ("location")) ("N/A") ++ " | 🏢 " ++
    ghOr (ghGet d ("company")) ("N/A") ++ "\n" ++
  "   🔗 " ++ ghDisplay (ghGet d ("html_url"))

def createRepoSummary (d : GhData) : String :=
  "✅ Repository created!\n" ++
  "   📦 **" ++ ghDisplay (ghGet d ("full_name")) ++ "** " ++
    (if ghTruthy (ghGet d ("private")) then "🔒 Private" else "🌐 Public") ++ "\n" ++
  "   🔗 " ++ ghDisplay (ghGet d ("html_url")) ++ "\n" ++
  "   📡 Clone: " ++ ghDisplay (ghGet d ("clone_url"))

def issueSummary (d : GhData) : String :=
  "✅ Issue created!\n" ++
  "   📝 #" ++ ghDisplay (ghGet d ("number")) ++ ": **" ++ ghDisplay (ghGet d ("title")) ++
    "**\n" ++
  "   🔗 " ++ ghDisplay (ghGet d ("html_url"))

def issueLine (i : Nat) (iss : GhData) : String :=
  "   " ++ toString (i + 1) ++ ". #" ++ ghDisplay (ghGet iss ("number")) ++ " — **" ++
    ghDisplay (ghGet iss ("title")) ++ "** (by " ++
    ghDisplay (ghGet (ghGet iss ("user")) ("login")) ++ ")"

def listIssuesSummary (owner repo : String) (d : GhData) : String :=
  if (ghArr d).length = 0 then
    "✅ No open issues in **" ++ owner ++ "/" ++ repo ++ "**"
  else
    "📋 Open issues in **" ++ owner ++ "/" ++ repo ++ "** (" ++ toString (ghArr d).length ++
      "):\n" ++
    String.intercalate ("\n") ((ghArr d).enum.map (fun pr => issueLine pr.1 pr.2))

def getRepoSummary (d : GhData) : String :=
  "📦 **" ++ ghDisplay (ghGet d ("full_name")) ++ "**\n" ++
  "   📝 " ++ ghOr (ghGet d ("description")) ("No description") ++ "\n" ++
  "   ⭐ " ++ ghDisplay (ghGet d ("stargazers_count")) ++ " | 🍴 " ++
    ghDisplay (ghGet d ("forks_count")) ++ " | 👁️ " ++
    ghDisplay (ghGet d ("watchers_count")) ++ "\n" ++
  "   🔤 Language: " ++ ghOr (ghGet d ("language")) ("N/A") ++ "\n" ++
  "   🔗 " ++ ghDisplay (ghGet d ("html_url"))

def prSummary (d : GhData) : String :=
  "✅ Pull Request created!\n" ++
  "   🔀 #" ++ ghDisplay (ghGet d ("number")) ++ ": **" ++ ghDisplay (ghGet d ("title")) ++
    "**\n" ++
  "   📌 " ++ ghDisplay (ghGet (ghGet d ("head")) ("ref")) ++ " → " ++
    ghDisplay (ghGet (ghGet d ("base")) ("ref")) ++ "\n" ++
  "   🔗 " ++ ghDisplay (ghGet d ("html_url"))

def pushLine (r : PushResult) : String :=
  "   " ++ (if r.success then "✅" else "❌") ++ " " ++ r.path

def pushSummary (owner repo : String) (results : List PushResult) : String :=
  "📤 Pushed " ++ toString (results.filter (fun r => r.success)).length ++ "/" ++
    toString results.length ++ " files to **" ++ owner ++ "/" ++ repo ++ "**\n" ++
  String.intercalate ("\n") (results.map pushLine)

/-- The uniform shape of every data-returning switch case: on provider
success, `return` the success result with the case's formatted summary and
the payload as `rawData`; on a thrown provider error, let it propagate to
the surrounding `catch`. -/
def wrapData (action : String) (fmt : GhData → String)
    (r : Except String GhData × CallSt) : Except String GitHubAgentResult × CallSt :=
  match r with
  | (Except.ok d, s1) => (Except.ok (okRes action (fmt d) (RawData.data d)), s1)
  | (Except.error m, s1) => (Except.error m, s1)

/-- Step 3 of `runGitHubAgent`: the `switch (intent.action)` inside the
`try`.  `Except.error` is a thrown error reaching the surrounding `catch`;
`Except.ok` is a normal `return` (which includes the in-switch validation
failures). -/
def execAction (beh : GhBehavior) (intent : GitHubIntent) (userId : String) (s : CallSt) :
    Except String GitHubAgentResult × CallSt :=
  if intent.action = "get_profile" then
    wrapData intent.action profileSummary (getUser beh userId s)
  else if intent.action = "list_repos" then
    wrapData intent.action listReposSummary (listRepos beh userId s)
  else if intent.action = "list_user_repos" then
    if jsFalsyStr intent.params.username then
      (Except.ok (failRes ("Username is required. Provide a GitHub username or profile URL.")), s)
    else
      wrapData intent.action (listUserReposSummary (jstr intent.params.username))
        (listPublicRepos beh (jstr intent.params.username) s)
  else if intent.action = "get_user_profile" then
    if jsFalsyStr intent.params.username then
      (Except.ok (failRes ("Username is required.")), s)
    else
      wrapData intent.action publicProfileSummary
        (getPublicUser beh (jstr intent.params.username) s)
  else if intent.action = "create_repo" then
    wrapData intent.action createRepoSummary
      (createRepo beh (jstr intent.params.name) userId s)
  else if intent.action = "star_repo" then
    wrapData intent.action
      (fun _ => "⭐ Done! Starred **" ++ jstr intent.params.owner ++ "/" ++
        jstr intent.params.repo ++ "**")
      (starRepo beh (jstr intent.params.owner) (jstr intent.params.repo) userId s)
  else if intent.action = "create_issue" then
    wrapData intent.action issueSummary
      (createIssue beh (jstr intent.params.owner) (jstr intent.params.repo)
        (jstr intent.params.title) (intent.params.body.getD ("")) userId s)
  else if intent.action = "list_issues" then
    wrapData intent.action
      (listIssuesSummary (jstr intent.params.owner) (jstr intent.params.repo))
      (listIssues beh (jstr intent.params.owner) (jstr intent.params.repo) userId s)
  else if intent.action = "get_repo" then
    wrapData intent.action getRepoSummary
      (getRepo beh (jstr intent.params.owner) (jstr intent.params.repo) userId s)
  else if intent.action = "create_pr" then
    wrapData intent.action prSummary
      (createPullRequest beh (jstr intent.params.owner) (jstr intent.params.repo)
        (jstr intent.params.title) (jstr intent.params.head)
        (intent.params.base.getD ("main")) (intent.params.body.getD ("")) userId s)
  else if intent.action = "push_project" then
    let r := pushProject beh (jstr intent.params.owner) (jstr intent.params.repo)
      intent.params.files ("Push from Agentic Workflow") userId s
    (Except.ok (okRes intent.action
      (pushSummary (jstr intent.params.owner) (jstr intent.params.repo) r.1)
      (RawData.pushResults r.1)), r.2)
  else
    (Except.ok (failRes ("Unknown action: " ++ intent.action ++
      ". Try: list repos, create repo, star repo, create issue, etc.")), s)

/-- The `needsAuth` result of the pre-switch authorization gate. -/
def needsAuthRes (env : OAuthEnv) (userId : String) : GitHubAgentResult :=
  { success := false, needsAuth := true,
    authUrl := some (getAuthorizationUrl env userId),
    message := some ("This action requires GitHub authorization.\n🔗 " ++
      getAuthorizationUrl env userId) }

/-- The `needsAuth` result of the `catch` block when the thrown message
signals an expired or missing token. -/
def sessionExpiredRes (env : OAuthEnv) (userId : String) : GitHubAgentResult :=
  { success := false, needsAuth := true,
    authUrl := some (getAuthorizationUrl env userId),
    message := some ("Session expired. Please reconnect:\n🔗 " ++
      getAuthorizationUrl env userId) }

/-- `runGitHubAgent(userPrompt, userId)`.  Step 1 (the Gemini parse plus
`JSON.parse`) is the oracle `parseOutcome`; step 2 is the authorization gate;
step 3 runs the switch inside `try`, whose `catch` turns token-expired /
not-connected messages into a re-authorization prompt and anything else into
a failed result. -/
def runGitHubAgent (beh : GhBehavior) (env : OAuthEnv)
    (parseOutcome : Except String GitHubIntent) (userId : String) (st : Store) :
    GitHubAgentResult × CallSt :=
  match parseOutcome with
  | Except.error errMsg =>
    ({ success := false, error := some ("Failed to understand request: " ++ errMsg) },
     { store := st, calls := [] })
  | Except.ok intent =>
    if !(PUBLIC_ACTIONS.contains intent.action) && !(isConnected userId st) then
      (needsAuthRes env userId, { store := st, calls := [] })
    else
      match execAction beh intent userId { store := st, calls := [] } with
      | (Except.ok res, s1) => (res, s1)
      | (Except.error msg, s1) =>
        if containsSub msg ("token expired") || containsSub msg ("not connected") then
          (sessionExpiredRes env userId, s1)
        else
          (failRes msg, s1)

/-! ## Crypto agent (`runCryptoAgent`, src/agents/cryptoAgent.ts lines 121-197)
Market numbers are IEEE floats in the source; no claim computes with them, so
they are carried as integers and the display-only `toLocaleString`/`toFixed`
renderings are `toString`-based. -/

structure CryptoQuote where
  symbol : String
  name : String
  price : Int
  volume_24h : Int
  percent_change_1h : Int
  percent_change_24h : Int
  percent_change_7d : Int
  market_cap : Int
  rank : Int
deriving DecidableEq

structure CryptoParams where
  symbols : Option String := none
  limit : Option Int := none
  query : Option String := none
deriving DecidableEq

structure CryptoIntent where
  action : String
  params : CryptoParams
deriving DecidableEq

structure CryptoAgentResult where
  success : Bool
  action : Option String := none
  data : Option (List CryptoQuote) := none
  analysis : Option String := none
  error : Option String := none
deriving DecidableEq

/-- Behaviour of the CoinMarketCap API (`getQuotes`, `getTopCoins`) and of
the Gemini call inside `analyzeWithGemini`. -/
structure CryptoBehavior where
  quotes : String → Except String (List CryptoQuote)
  top : Int → Except String (List CryptoQuote)
  gemini : List CryptoQuote → String → Except String String

/-- `getQuotes(symbols)`: uppercases the symbols; calling it with an absent
`symbols` parameter throws a TypeError in JavaScript, modelled as the
corresponding error. -/
def getQuotes (beh : CryptoBehavior) (symbols : Option String) :
    Except String (List CryptoQuote) :=
  match symbols with
  | none => Except.error ("Cannot read properties of undefined (reading toUpperCase)")
  | some sy => beh.quotes sy.toUpper

def getTopCoins (beh : CryptoBehavior) (limit : Int) : Except String (List CryptoQuote) :=
  beh.top limit

/-- `x || dflt` for a possibly-absent number (`0` is falsy). -/
def jsOrNum (v : Option Int) (dflt : Int) : Int :=
  match v with
  | none => dflt
  | some n => if n = 0 then dflt else n

/-- One line of the `top_coins` summary. -/
def topCoinLine (i : Nat) (q : CryptoQuote) : String :=
  toString (i + 1) ++ ". **" ++ q.name ++ "** (" ++ q.symbol ++ ") — $" ++
    toString q.price ++ " | MCap: $" ++ toString (q.market_cap / 1000000000) ++
    "B | 24h: " ++ toString q.percent_change_24h ++ "%"

/-- Step 2 of `runCryptoAgent`: the `switch (intent.action)` inside `try`. -/
def execCrypto (beh : CryptoBehavior) (intent : CryptoIntent) :
    Except String CryptoAgentResult :=
  if intent.action = "get_price" then
    match getQuotes beh intent.params.symbols with
    | Except.error m => Except.error m
    | Except.ok qs =>
      Except.ok { success := true, action := some ("get_price"), data := some qs }
  else if intent.action = "top_coins" then
    match getTopCoins beh (jsOrNum intent.params.limit 10) with
    | Except.error m => Except.error m
    | Except.ok qs =>
      Except.ok { success := true, action := some ("top_coins"), data := some qs,
                  analysis := some (String.intercalate ("\n")
                    (qs.enum.map (fun pr => topCoinLine pr.1 pr.2))) }
  else if intent.action = "analyze" then
    match getQuotes beh intent.params.symbols with
    | Except.error m => Except.error m
    | Except.ok qs =>
      match beh.gemini qs (jsOrStr intent.params.query ("")) with
      | Except.error m => Except.error m
      | Except.ok txt =>
        Except.ok { success := true, action := some ("analyze"), data := some qs,
                    analysis := some txt }
  else if intent.action = "market_overview" then
    match getTopCoins beh (jsOrNum intent.params.limit 10) with
    | Except.error m => Except.error m
    | Except.ok qs =>
      match beh.gemini qs (jsOrStr intent.params.query ("Give a market overview")) with
      | Except.error m => Except.error m
      | Except.ok txt =>
        Except.ok { success := true, action := some ("market_overview"), data := some qs,
                    analysis := some txt }
  else
    Except.ok { success := false, error := some ("Unknown action: " ++ intent.action) }

/-- `runCryptoAgent(userPrompt)`: the Gemini parse plus `JSON.parse` is the
oracle `parseOutcome`; every thrown error of the switch is caught and wrapped
as a failed result. -/
def runCryptoAgent (beh : CryptoBehavior) (parseOutcome : Except String CryptoIntent) :
    CryptoAgentResult :=
  match parseOutcome with
  | Except.error m =>
    { success := false, error := some ("Failed to parse intent: " ++ m) }
  | Except.ok intent =>
    match execCrypto beh intent with
    | Except.ok r => r
    | Except.error m =>
      { success := false, error := some ("CoinMarketCap API error: " ++ m) }

/-! ## Concrete fixtures used by witnesses and counterexamples -/

def env0 : OAuthEnv := { clientId := "cid", redirectUri := "ruri" }

def tok0 : TokenData := { accessToken := "tok", tokenType := "bearer", scope := "repo" }

/-- A store holding a credential for identity "u" only. -/
def stU : Store := fun k => if k = "u" then some tok0 else none

/-- The empty store. -/
def stEmpty : Store := fun _ => none

/-- A GitHub API that answers 401 to every authenticated call. -/
def beh401 : GhBehavior :=
  { api := fun _ _ _ => ApiOutcome.http401,
    pub := fun _ _ => ApiOutcome.failMsg ("offline") }

/-- A GitHub API that answers every call with an empty object. -/
def behAnyOk : GhBehavior :=
  { api := fun _ _ _ => ApiOutcome.okData (GhData.objV []),
    pub := fun _ _ => ApiOutcome.okData (GhData.objV []) }

/-! ## Theorems -/

/-- helper: unfolding facts about the token-expired message. -/
theorem tokenExpired_contains : containsSub tokenExpiredMsg ("token expired") = true := by
  decide

/-- Claim C10: Authorization-State round trip and per-identity isolation.
After `storeToken(a, t)` the store is connected for `a` and `getToken a`
returns a record with `t`'s access token, token type and scope and a set
`connectedAt`; after `disconnect a` the identity is disconnected and its
token gone; and both mutations leave every other identity `b` untouched. -/
theorem spec_c10_token_store_roundtrip (a b : String) (t : TokenData) (now : String)
    (st : Store) :
    getToken a (storeToken a t now st) =
      some { accessToken := t.accessToken, tokenType := t.tokenType, scope := t.scope,
             connectedAt := some now } ∧
    isConnected a (storeToken a t now st) = true ∧
    isConnected a (disconnect a st) = false ∧
    getToken a (disconnect a st) = none ∧
    (b ≠ a → getToken b (storeToken a t now st) = getToken b st) ∧
    (b ≠ a → getToken b (disconnect a st) = getToken b st) := by
  obtain ⟨ta, tt, ts, tc⟩ := t
  refine ⟨?_, ?_, ?_, ?_, ?_, ?_⟩ <;>
    simp [getToken, storeToken, isConnected, disconnect]
  · intro h
    simp [h]
  · intro h
    simp [h]

/-- Witness for C10 at concrete identities and token data. -/
theorem spec_c10_witness :
    getToken ("alice") (storeToken ("alice") tok0 ("2026-01-01") stEmpty) =
      some { accessToken := "tok", tokenType := "bearer", scope := "repo",
             connectedAt := some ("2026-01-01") } ∧
    getToken ("bob") (storeToken ("alice") tok0 ("2026-01-01") stEmpty) =
      getToken ("bob") stEmpty ∧
    isConnected ("alice") (disconnect ("alice") stEmpty) = false := by
  refine ⟨?_, ?_, ?_⟩
  · exact (spec_c10_token_store_roundtrip ("alice") ("bob") tok0 ("2026-01-01") stEmpty).1
  · exact (spec_c10_token_store_roundtrip ("alice") ("bob") tok0 ("2026-01-01")
      stEmpty).2.2.2.2.1 (by decide)
  · exact (spec_c10_token_store_roundtrip ("alice") ("bob") tok0 ("2026-01-01")
      stEmpty).2.2.1

/-- helper: every attempt recorded by `retryLoop` is of the loop's own model
and its attempt number lies in the loop's window. -/
theorem retryLoop_mem (beh : String → Nat → Except String String) (m : String) :
    ∀ (fuel a0 : Nat) (x : String × Nat),
      x ∈ (retryLoop beh m a0 fuel).2.1 → x.1 = m ∧ a0 ≤ x.2 ∧ x.2 < a0 + fuel := by
  intro fuel
  induction fuel with
  | zero => intro a0 x hx; simp [retryLoop] at hx
  | succ n ih =>
    intro a0 x hx
    rw [retryLoop] at hx
    cases hb : beh m a0 with
    | ok t =>
      rw [hb] at hx
      simp at hx
      subst hx
      exact ⟨rfl, Nat.le_refl a0, by omega⟩
    | error msg =>
      rw [hb] at hx
      dsimp only at hx
      by_cases hc : is429 msg = true ∧ a0 < MAX_RETRIES
      · rw [if_pos hc] at hx
        simp at hx
        rcases hx with hx | hx
        · subst hx
          exact ⟨rfl, Nat.le_refl a0, by omega⟩
        · obtain ⟨h1, h2, h3⟩ := ih (a0 + 1) x hx
          exact ⟨h1, by omega, by omega⟩
      · rw [if_neg hc] at hx
        by_cases h4 : is429 msg = true
        · rw [if_pos h4] at hx
          simp at hx
          subst hx
          exact ⟨rfl, Nat.le_refl a0, by omega⟩
        · rw [if_neg h4] at hx
          simp at hx
          subst hx
          exact ⟨rfl, Nat.le_refl a0, by omega⟩

/-- helper: every attempt recorded by the model chain is of a chain model,
numbered between 1 and the retry ceiling. -/
theorem geminiChain_mem (beh : String → Nat → Except String String) :
    ∀ (ms : List String) (x : String × Nat),
      x ∈ (geminiChain beh ms).2.1 → x.1 ∈ ms ∧ 1 ≤ x.2 ∧ x.2 ≤ MAX_RETRIES := by
  intro ms
  induction ms with
  | nil => intro x hx; simp [geminiChain] at hx
  | cons m rest ih =>
    intro x hx
    rw [geminiChain] at hx
    cases hr : (retryLoop beh m 1 MAX_RETRIES).1 with
    | ok o =>
      cases o with
      | some res =>
        rw [hr] at hx
        simp at hx
        obtain ⟨h1, h2, h3⟩ := retryLoop_mem beh m MAX_RETRIES 1 x hx
        exact ⟨by simp [h1], h2, by omega⟩
      | none =>
        rw [hr] at hx
        simp at hx
        rcases hx with hx | hx
        · obtain ⟨h1, h2, h3⟩ := retryLoop_mem beh m MAX_RETRIES 1 x hx
          exact ⟨by simp [h1], h2, by omega⟩
        · obtain ⟨h1, h2, h3⟩ := ih x hx
          exact ⟨by simp [h1], h2, h3⟩
    | error msg =>
      rw [hr] at hx
      simp at hx
      obtain ⟨h1, h2, h3⟩ := retryLoop_mem beh m MAX_RETRIES 1 x hx
      exact ⟨by simp [h1], h2, by omega⟩

/-- helper: a model whose every attempt rate-limits makes the loop fall
through to the next model. -/
theorem retryLoop_all429 (beh : String → Nat → Except String String) (m : String)
    (h : ∀ a, ∃ msg, beh m a = Except.error msg ∧ is429 msg = true) :
    ∀ (fuel a0 : Nat), (retryLoop beh m a0 fuel).1 = Except.ok none := by
  intro fuel
  induction fuel with
  | zero => intro a0; simp [retryLoop]
  | succ n ih =>
    intro a0
    rw [retryLoop]
    obtain ⟨msg, hmsg, h4⟩ := h a0
    rw [hmsg]
    dsimp only
    by_cases hc : is429 msg = true ∧ a0 < MAX_RETRIES
    · rw [if_pos hc]
      exact ih (a0 + 1)
    · rw [if_neg hc, if_pos h4]

/-- Claim C2: the Generative-Text Client iterates the ordered model chain
with at most `MAX_RETRIES = 3` attempts per model and a `BASE_DELAY_MS ×
attempt` backoff before each same-model retry; with the first two chain
models always rate-limited and the third succeeding it returns the third
model's text after exactly 3 + 3 attempts and backoffs 5s, 10s per failing
model; and with every model rate-limited it fails with the exhaustion
error. -/
theorem spec_c2_retry_backoff_model_fallback (beh : String → Nat → Except String String) :
    (∀ x ∈ (callGeminiWithRetry beh).2.1, x.1 ∈ MODELS ∧ 1 ≤ x.2 ∧ x.2 ≤ MAX_RETRIES) ∧
    (∀ e1 e2 t,
      (∀ a, beh ("gemini-2.5-flash") a = Except.error e1) → is429 e1 = true →
      (∀ a, beh ("gemini-2.5-flash-lite") a = Except.error e2) → is429 e2 = true →
      beh ("gemini-3-flash") 1 = Except.ok t →
      callGeminiWithRetry beh =
        (Except.ok { success := true, text := t, model := "gemini-3-flash" },
         ([(("gemini-2.5-flash"), 1), (("gemini-2.5-flash"), 2), (("gemini-2.5-flash"), 3),
           (("gemini-2.5-flash-lite"), 1), (("gemini-2.5-flash-lite"), 2),
           (("gemini-2.5-flash-lite"), 3), (("gemini-3-flash"), 1)],
          [5000, 10000, 5000, 10000]))) ∧
    ((∀ m a, ∃ msg, beh m a = Except.error msg ∧ is429 msg = true) →
      (callGeminiWithRetry beh).1 = Except.error exhaustedMsg) := by
  refine ⟨?_, ?_, ?_⟩
  · intro x hx
    exact geminiChain_mem beh MODELS x hx
  · intro e1 e2 t h1 h1r h2 h2r h3
    simp [callGeminiWithRetry, geminiChain, MODELS, retryLoop, MAX_RETRIES, BASE_DELAY_MS,
      h1, h1r, h2, h2r, h3]
  · intro hall
    have hc : ∀ ms, (geminiChain beh ms).1 = Except.error exhaustedMsg := by
      intro ms
      induction ms with
      | nil => simp [geminiChain]
      | cons m rest ih =>
        rw [geminiChain]
        rw [retryLoop_all429 beh m (hall m) MAX_RETRIES 1]
        exact ih
    exact hc MODELS

/-- Witness for C2: a concrete behaviour realizing the scenario in C2's
second clause. -/
theorem spec_c2_witness :
    callGeminiWithRetry
        (fun m _ => if m = "gemini-3-flash" then Except.ok ("hi") else Except.error ("429")) =
      (Except.ok { success := true, text := "hi", model := "gemini-3-flash" },
       ([(("gemini-2.5-flash"), 1), (("gemini-2.5-flash"), 2), (("gemini-2.5-flash"), 3),
         (("gemini-2.5-flash-lite"), 1), (("gemini-2.5-flash-lite"), 2),
         (("gemini-2.5-flash-lite"), 3), (("gemini-3-flash"), 1)],
        [5000, 10000, 5000, 10000])) := by
  exact (spec_c2_retry_backoff_model_fallback
      (fun m _ => if m = "gemini-3-flash" then Except.ok ("hi") else Except.error ("429"))).2.1
    ("429") ("429") ("hi") (fun a => rfl) (by decide) (fun a => rfl) (by decide) rfl

/-- A behaviour whose first model fails with a non-rate-limit error while the
later models succeed. -/
def behBoom : String → Except String String :=
  fun m => if m = "gemini-2.5-flash" then Except.error ("boom") else Except.ok ("hi")

/-- Counterexample to claim C3 as stated: `callGemini` — the generative-text
call used by the GitHub agent's intent parsing — does NOT propagate a
non-rate-limit error immediately.  With the first model failing with "boom"
(not rate-limit classified) it still attempts the second model and returns
its text instead of propagating the error. -/
theorem spec_c3_counterexample :
    is429 ("boom") = false ∧
    callGemini behBoom =
      (Except.ok ("hi"), [("gemini-2.5-flash"), ("gemini-2.5-flash-lite")]) := by
  constructor
  · decide
  · rfl

/-- helper: inside `retryLoop`, an attempt whose oracle outcome is a
non-rate-limit error is the last attempt made and its error is the loop's
result. -/
theorem retryLoop_non429 (beh : String → Nat → Except String String) (m : String)
    (a : Nat) (msg : String) (herr : beh m a = Except.error msg)
    (h4 : is429 msg = false) :
    ∀ (fuel a0 : Nat), (m, a) ∈ (retryLoop beh m a0 fuel).2.1 →
      (retryLoop beh m a0 fuel).1 = Except.error msg ∧
      ∃ pre, (retryLoop beh m a0 fuel).2.1 = pre ++ [(m, a)] := by
  intro fuel
  induction fuel with
  | zero => intro a0 hx; simp [retryLoop] at hx
  | succ n ih =>
    intro a0 hx
    rw [retryLoop] at hx ⊢
    cases hb : beh m a0 with
    | ok t =>
      rw [hb] at hx
      simp at hx
      rw [hx] at herr
      rw [herr] at hb
      exact absurd hb (by simp)
    | error msg0 =>
      rw [hb] at hx
      dsimp only at hx
      dsimp only
      by_cases hc : is429 msg0 = true ∧ a0 < MAX_RETRIES
      · rw [if_pos hc] at hx ⊢
        simp at hx
        rcases hx with hx | hx
        · rw [hx] at herr
          rw [herr] at hb
          have : msg = msg0 := by
            injection hb
          rw [this] at h4
          rw [h4] at hc
          simp at hc
        · obtain ⟨h1, pre, h2⟩ := ih (a0 + 1) hx
          refine ⟨h1, (m, a0) :: pre, ?_⟩
          simp [h2]
      · rw [if_neg hc] at hx ⊢
        by_cases h5 : is429 msg0 = true
        · rw [if_pos h5] at hx
          simp at hx
          rw [hx] at herr
          rw [herr] at hb
          have : msg = msg0 := by
            injection hb
          rw [this] at h4
          rw [h4] at h5
          simp at h5
        · rw [if_neg h5] at hx ⊢
          simp at hx
          rw [hx] at herr
          rw [herr] at hb
          have hmm : msg0 = msg := by
            injection hb with h6
            exact h6.symm
          rw [hmm, hx]
          exact ⟨rfl, [], rfl⟩

/-- helper: in the whole model chain, an attempt with a non-rate-limit error
outcome ends the run: its error is the result and no later attempt (of this
or any later model) is made. -/
theorem geminiChain_non429 (beh : String → Nat → Except String String) (m : String)
    (a : Nat) (msg : String) (herr : beh m a = Except.error msg)
    (h4 : is429 msg = false) :
    ∀ ms, (m, a) ∈ (geminiChain beh ms).2.1 →
      (geminiChain beh ms).1 = Except.error msg ∧
      ∃ pre, (geminiChain beh ms).2.1 = pre ++ [(m, a)] := by
  intro ms
  induction ms with
  | nil => intro hx; simp [geminiChain] at hx
  | cons m0 rest ih =>
    intro hx
    rw [geminiChain] at hx ⊢
    dsimp only at hx ⊢
    cases hr : (retryLoop beh m0 1 MAX_RETRIES).1 with
    | ok o =>
      cases o with
      | some res =>
        rw [hr] at hx
        dsimp only at hx
        have hm : m = m0 := (retryLoop_mem beh m0 MAX_RETRIES 1 (m, a) hx).1
        subst hm
        have := (retryLoop_non429 beh m a msg herr h4 MAX_RETRIES 1 hx).1
        rw [hr] at this
        exact absurd this (by simp)
      | none =>
        rw [hr] at hx
        dsimp only at hx
        rcases List.mem_append.mp hx with hx1 | hx2
        · have hm : m = m0 := (retryLoop_mem beh m0 MAX_RETRIES 1 (m, a) hx1).1
          subst hm
          have := (retryLoop_non429 beh m a msg herr h4 MAX_RETRIES 1 hx1).1
          rw [hr] at this
          exact absurd this (by simp)
        · obtain ⟨hres, pre, hpre⟩ := ih hx2
          dsimp only
          refine ⟨hres, (retryLoop beh m0 1 MAX_RETRIES).2.1 ++ pre, ?_⟩
          rw [hpre, List.append_assoc]
    | error msg0 =>
      rw [hr] at hx
      dsimp only at hx
      have hm : m = m0 := (retryLoop_mem beh m0 MAX_RETRIES 1 (m, a) hx).1
      subst hm
      obtain ⟨h1, pre, h2⟩ := retryLoop_non429 beh m a msg herr h4 MAX_RETRIES 1 hx
      rw [hr] at h1
      dsimp only
      have hmm : msg0 = msg := by injection h1
      rw [hmm]
      exact ⟨rfl, pre, h2⟩

/-- Claim C3 (amended): for `callGeminiWithRetry` — the Generative-Text
Client used by the report generator, quick summaries, `parseUserIntent` and
the crypto agent — a non-rate-limit failure at any model and attempt
propagates that error as the final result, with that attempt being the last
one made (no retry of the same model and no later model is attempted).  The
GitHub agent's own intent-parsing helper `callGemini` deviates; see the
counterexample. -/
theorem spec_c3_amended_non_rate_limit_aborts (beh : String → Nat → Except String String)
    (m : String) (a : Nat) (msg : String) :
    beh m a = Except.error msg → is429 msg = false →
    (m, a) ∈ (callGeminiWithRetry beh).2.1 →
    (callGeminiWithRetry beh).1 = Except.error msg ∧
    ∃ pre, (callGeminiWithRetry beh).2.1 = pre ++ [(m, a)] := by
  intro herr h4 hx
  exact geminiChain_non429 beh m a msg herr h4 MODELS hx

/-- Witness for the amended C3: with a first model failing non-rate-limit,
`callGeminiWithRetry` stops after that single attempt and propagates "boom". -/
theorem spec_c3_witness :
    (callGeminiWithRetry (fun m _ =>
        if m = "gemini-2.5-flash" then Except.error ("boom") else Except.ok ("hi"))).1 =
      Except.error ("boom") ∧
    ∃ pre, (callGeminiWithRetry (fun m _ =>
        if m = "gemini-2.5-flash" then Except.error ("boom") else Except.ok ("hi"))).2.1 =
      pre ++ [(("gemini-2.5-flash"), 1)] := by
  exact spec_c3_amended_non_rate_limit_aborts
    (fun m _ => if m = "gemini-2.5-flash" then Except.error ("boom") else Except.ok ("hi"))
    ("gemini-2.5-flash") 1 ("boom") rfl (by decide) (by decide)

/-- Claim C6: on the fallback path, an Instagram URL match wins and yields
the content-analysis intent whose `urls` are exactly the regex matches in
order; otherwise the repository-automation keyword set is tried, then the
market-data one, and with no match the intent is unrecognized. -/
theorem spec_c6_fallback_classification (p errMsg : String) :
    ((instaUrlMatches p).length > 0 →
      parseIntentFallback p errMsg =
        { success := true, platform := "instagram", urls := instaUrlMatches p,
          action := some ("analyze"), userQuery := p, fallback := some true }) ∧
    ((instaUrlMatches p).length = 0 → kwTest githubKwPats p = true →
      parseIntentFallback p errMsg =
        { success := true, platform := "github", urls := [],
          action := some ("github_action"), userQuery := p, fallback := some true }) ∧
    ((instaUrlMatches p).length = 0 → kwTest githubKwPats p = false →
      kwTest cryptoKwPats p = true →
      parseIntentFallback p errMsg =
        { success := true, platform := "crypto", urls := [],
          action := some ("crypto_action"), userQuery := p, fallback := some true }) ∧
    ((instaUrlMatches p).length = 0 → kwTest githubKwPats p = false →
      kwTest cryptoKwPats p = false →
      parseIntentFallback p errMsg =
        { success := false, error := some errMsg, platform := "unknown", urls := [],
          action := none, userQuery := p }) := by
  refine ⟨?_, ?_, ?_, ?_⟩
  · intro h1
    simp [parseIntentFallback, h1]
  · intro h1 h2
    simp [parseIntentFallback, h1, h2]
  · intro h1 h2 h3
    simp [parseIntentFallback, h1, h2, h3]
  · intro h1 h2 h3
    simp [parseIntentFallback, h1, h2, h3]

/-- Witness for C6: a prompt holding both an Instagram URL and a GitHub
keyword classifies as Instagram (URL precedence), with the single regex
match as its URL list. -/
theorem spec_c6_witness :
    parseIntentFallback ("analyze https://instagram.com/p/A and star my repo") ("down") =
      { success := true, platform := "instagram",
        urls := [("https://instagram.com/p/A")],
        action := some ("analyze"),
        userQuery := "analyze https://instagram.com/p/A and star my repo",
        fallback := some true } := by
  exact (spec_c6_fallback_classification
    ("analyze https://instagram.com/p/A and star my repo") ("down")).1 (by decide)

/-- Counterexample to claim C7 as stated: on the generative path the
classifier can return `platform = "unknown"` with a non-null action — the
source defaults `action` to `'analyze'` (`parsed.action || 'analyze'`) even
when the model replied with platform "unknown". -/
theorem spec_c7_counterexample :
    (parseUserIntent ("hello") (Except.ok { platform := some ("unknown") })).platform =
      "unknown" ∧
    (parseUserIntent ("hello") (Except.ok { platform := some ("unknown") })).action =
      some ("analyze") := by
  exact ⟨rfl, rfl⟩

/-- Claim C7 (amended): the `platform = unrecognized implies action = null`
invariant holds on the fallback path; on the generative-success path the
action is never null (it defaults to `analyze`), even for platform
"unknown". -/
theorem spec_c7_amended_unknown_platform (p errMsg : String) (parsed : GeminiParsed) :
    ((parseIntentFallback p errMsg).platform = "unknown" →
      (parseIntentFallback p errMsg).action = none) ∧
    (parseIntentSuccess p parsed).action.isSome = true := by
  constructor
  · intro h
    unfold parseIntentFallback at h ⊢
    dsimp only at h ⊢
    split at h
    · simp at h
    · split at h
      · simp at h
      · split at h
        · simp at h
        · simp_all
  · simp [parseIntentSuccess]

/-- Witness for the amended C7 at a keyword-free prompt. -/
theorem spec_c7_witness :
    (parseIntentFallback ("zzz") ("down")).action = none ∧
    (parseIntentSuccess ("zzz") { platform := some ("unknown") }).action.isSome = true := by
  refine ⟨?_, ?_⟩
  · exact (spec_c7_amended_unknown_platform ("zzz") ("down")
      { platform := some ("unknown") }).1 rfl
  · exact (spec_c7_amended_unknown_platform ("zzz") ("down")
      { platform := some ("unknown") }).2

/-- Claim C1: with no Credential Record for the identity, any classified
intent whose action is outside `PUBLIC_ACTIONS` short-circuits at the
authorization gate: the dispatcher returns a `needsAuth` result carrying the
freshly generated authorization URL, makes zero provider calls and leaves
the store untouched. -/
theorem spec_c1_gated_dispatch_requires_auth (beh : GhBehavior) (env : OAuthEnv)
    (intent : GitHubIntent) (userId : String) (st : Store) :
    PUBLIC_ACTIONS.contains intent.action = false →
    isConnected userId st = false →
    runGitHubAgent beh env (Except.ok intent) userId st =
      (needsAuthRes env userId, { store := st, calls := [] }) := by
  intro h1 h2
  have h1m : intent.action ∉ PUBLIC_ACTIONS := by
    simpa using h1
  simp [runGitHubAgent, h1m, h2]

/-- Witness for C1: an unauthenticated `star_repo` dispatch against a 401
environment. -/
theorem spec_c1_witness :
    runGitHubAgent beh401 env0 (Except.ok { action := "star_repo", params := {} })
        ("default") stEmpty =
      (needsAuthRes env0 ("default"), { store := stEmpty, calls := [] }) := by
  exact spec_c1_gated_dispatch_requires_auth beh401 env0
    { action := "star_repo", params := {} } ("default") stEmpty (by decide) rfl

/-- The action names handled by `runGitHubAgent`'s switch. -/
def handledActions : List String :=
  [("get_profile"), ("list_repos"), ("list_user_repos"), ("get_user_profile"),
   ("create_repo"), ("star_repo"), ("create_issue"), ("list_issues"), ("get_repo"),
   ("create_pr"), ("push_project")]

/-- Counterexample to claim C9 as stated: a `delete_repo` intent for an
identity without a Credential Record does NOT return the failed
"Unknown action" result — the authorization gate fires first and returns
`needsAuthorization` (still with zero provider calls). -/
theorem spec_c9_counterexample :
    (runGitHubAgent behAnyOk env0 (Except.ok { action := "delete_repo", params := {} })
        ("default") stEmpty).1.needsAuth = true ∧
    (runGitHubAgent behAnyOk env0 (Except.ok { action := "delete_repo", params := {} })
        ("default") stEmpty).1.error = none ∧
    (runGitHubAgent behAnyOk env0 (Except.ok { action := "delete_repo", params := {} })
        ("default") stEmpty).2.calls = [] := by
  exact ⟨rfl, rfl, rfl⟩

/-- Claim C9 (amended): the dispatcher can never delete a repository.  For
any parsed action outside the handled set (`delete_repo` included), no
provider call is ever made: an authorized identity gets the failed
"Unknown action" result with the store untouched, and an unauthorized one
gets the `needsAuthorization` gate result. -/
theorem spec_c9_amended_unhandled_action_safe (beh : GhBehavior) (env : OAuthEnv)
    (intent : GitHubIntent) (userId : String) (st : Store) :
    handledActions.contains intent.action = false →
    (runGitHubAgent beh env (Except.ok intent) userId st).2.calls = [] ∧
    (runGitHubAgent beh env (Except.ok intent) userId st).2.store = st ∧
    (isConnected userId st = true →
      (runGitHubAgent beh env (Except.ok intent) userId st).1 =
        failRes ("Unknown action: " ++ intent.action ++
          ". Try: list repos, create repo, star repo, create issue, etc.")) ∧
    (isConnected userId st = false →
      (runGitHubAgent beh env (Except.ok intent) userId st).1 = needsAuthRes env userId) := by
  intro h
  simp [handledActions, List.contains_eq_any_beq, List.any_eq_true] at h
  obtain ⟨n1, n2, n3, n4, n5, n6, n7, n8, n9, n10, n11⟩ := h
  have hpub : PUBLIC_ACTIONS.contains intent.action = false := by
    simp [PUBLIC_ACTIONS, List.contains_eq_any_beq, List.any_eq_true]
    exact ⟨n3, n4⟩
  by_cases hc : isConnected userId st = true
  · refine ⟨?_, ?_, ?_, ?_⟩ <;>
      simp [runGitHubAgent, execAction, hpub, hc, n1, n2, n3, n4, n5, n6, n7, n8, n9,
        n10, n11]
  · have hc2 : isConnected userId st = false := by
      simpa using hc
    have hpubm : intent.action ∉ PUBLIC_ACTIONS := by
      simpa using hpub
    refine ⟨?_, ?_, ?_, ?_⟩ <;> simp [runGitHubAgent, hpubm, hc2]

/-- Witness for the amended C9 at a concrete `delete_repo` dispatch, both
authorized and not. -/
theorem spec_c9_witness :
    (runGitHubAgent behAnyOk env0 (Except.ok { action := "delete_repo", params := {} })
        ("u") stU).1 =
      failRes ("Unknown action: delete_repo. Try: list repos, create repo, star repo, create issue, etc.") ∧
    (runGitHubAgent behAnyOk env0 (Except.ok { action := "delete_repo", params := {} })
        ("u") stU).2.calls = [] ∧
    (runGitHubAgent behAnyOk env0 (Except.ok { action := "delete_repo", params := {} })
        ("default") stEmpty).1 = needsAuthRes env0 ("default") := by
  refine ⟨?_, ?_, ?_⟩
  · exact (spec_c9_amended_unhandled_action_safe behAnyOk env0
      { action := "delete_repo", params := {} } ("u") stU (by decide)).2.2.1 rfl
  · exact (spec_c9_amended_unhandled_action_safe behAnyOk env0
      { action := "delete_repo", params := {} } ("u") stU (by decide)).1
  · exact (spec_c9_amended_unhandled_action_safe behAnyOk env0
      { action := "delete_repo", params := {} } ("default") stEmpty (by decide)).2.2.2 rfl

/-- Parameters of a one-file `push_project` intent. -/
def pushP : GhParams :=
  { owner := some ("o"), repo := some ("r"),
    files := [{ path := "a.txt", content := "x" }] }

/-- Counterexample to claim C4 as stated: an authenticated `push_project`
dispatch whose provider call returns 401 does NOT return
`needsAuthorization`; the per-file catch inside `pushProject` swallows the
credential-invalid failure, so the dispatch reports overall success with the
file marked failed — although the Credential Record is indeed deleted. -/
theorem spec_c4_counterexample :
    (runGitHubAgent beh401 env0
        (Except.ok { action := "push_project", params := pushP }) ("u") stU).1.success =
      true ∧
    (runGitHubAgent beh401 env0
        (Except.ok { action := "push_project", params := pushP }) ("u") stU).1.needsAuth =
      false ∧
    isConnected ("u")
        (runGitHubAgent beh401 env0
          (Except.ok { action := "push_project", params := pushP }) ("u") stU).2.store =
      false := by
  exact ⟨rfl, rfl, rfl⟩

/-- helper: once the identity's token is gone, the push loop makes no state
change (every `githubAPI` call throws before doing anything). -/
theorem pushProject_store_stuck (beh : GhBehavior) (owner repo cm userId : String) :
    ∀ (files : List FileEntry) (s : CallSt), s.store userId = none →
      (pushProject beh owner repo files cm userId s).2.store = s.store := by
  intro files
  induction files with
  | nil => intro s h; rfl
  | cons f fs ih =>
    intro s h
    simp only [pushProject, createOrUpdateFile, githubAPI, h]
    exact ih s h

/-- helper: a push against an all-401 API deletes the identity's Credential
Record during the first file and leaves it deleted. -/
theorem pushProject_401_disconnects (beh : GhBehavior)
    (h3 : ∀ n e m, beh.api n e m = ApiOutcome.http401)
    (owner repo cm userId : String) (f : FileEntry) (fs : List FileEntry)
    (st : Store) (td : TokenData) (htd : st userId = some td) :
    (pushProject beh owner repo (f :: fs) cm userId
        { store := st, calls := [] }).2.store userId = none := by
  have h0 : (disconnect userId st) userId = none := by
    simp [disconnect]
  have hstep : createOrUpdateFile beh owner repo f.path f.content cm userId
      { store := st, calls := [] } =
      (Except.error notConnectedMsg,
       { store := disconnect userId st,
         calls := [{ endpoint := "/repos/" ++ owner ++ "/" ++ repo ++ "/contents/" ++ f.path,
                     method := "GET", authed := true }] }) := by
    simp [createOrUpdateFile, githubAPI, htd, h3, h0]
  simp only [pushProject, hstep]
  rw [pushProject_store_stuck beh owner repo cm userId fs _ h0]
  exact h0

/-- The gated actions whose provider call happens directly in their switch
case (every handled authenticated action except `push_project`). -/
def directAuthActions : List String :=
  [("get_profile"), ("list_repos"), ("create_repo"), ("star_repo"), ("create_issue"),
   ("list_issues"), ("get_repo"), ("create_pr")]

/-- Claim C4 (amended): when an authenticated dispatch's provider call
returns the credential-invalid signal (HTTP 401), the Credential Record is
deleted in every case — a subsequent `isConnected` check returns false.  For
the direct gated actions the dispatch also converts the failure into
`needsAuthorization` with a fresh authorization URL; for `push_project`,
however, the per-file catch swallows the failure and the dispatch reports
overall success with the files marked failed. -/
theorem spec_c4_amended_credential_invalid (beh : GhBehavior) (env : OAuthEnv)
    (intent : GitHubIntent) (userId : String) (st : Store) (td : TokenData) :
    (st userId = some td →
      directAuthActions.contains intent.action = true →
      (∀ e m, beh.api 0 e m = ApiOutcome.http401) →
      (runGitHubAgent beh env (Except.ok intent) userId st).1 =
        sessionExpiredRes env userId ∧
      isConnected userId
        (runGitHubAgent beh env (Except.ok intent) userId st).2.store = false) ∧
    (st userId = some td →
      intent.action = "push_project" →
      (∀ n e m, beh.api n e m = ApiOutcome.http401) →
      intent.params.files ≠ [] →
      (runGitHubAgent beh env (Except.ok intent) userId st).1.success = true ∧
      (runGitHubAgent beh env (Except.ok intent) userId st).1.needsAuth = false ∧
      isConnected userId
        (runGitHubAgent beh env (Except.ok intent) userId st).2.store = false) := by
  constructor
  · intro htd hact h3
    simp [directAuthActions, List.contains_eq_any_beq, List.any_eq_true] at hact
    rcases hact with ha | ha | ha | ha | ha | ha | ha | ha <;>
      simp [runGitHubAgent, execAction, wrapData, ha, isConnected, htd, getUser, listRepos,
        createRepo, starRepo, createIssue, listIssues, getRepo, createPullRequest,
        githubAPI, h3, tokenExpired_contains, disconnect]
  · intro htd hact h3 hfiles
    obtain ⟨f, fs, hf⟩ : ∃ f fs, intent.params.files = f :: fs := by
      cases hcc : intent.params.files with
      | nil => exact absurd hcc hfiles
      | cons a b => exact ⟨a, b, rfl⟩
    have hdis := pushProject_401_disconnects beh h3 (jstr intent.params.owner)
      (jstr intent.params.repo) ("Push from Agentic Workflow") userId f fs st td htd
    refine ⟨?_, ?_, ?_⟩ <;>
      simp [runGitHubAgent, execAction, hact, isConnected, htd, hf, hdis, okRes]

/-- Witness for the amended C4: a 401 during `star_repo` re-prompts for
authorization and deletes the token; a 401 during `push_project` reports
success with the token likewise deleted. -/
theorem spec_c4_witness :
    (runGitHubAgent beh401 env0
        (Except.ok { action := "star_repo", params := pushP }) ("u") stU).1 =
      sessionExpiredRes env0 ("u") ∧
    isConnected ("u")
        (runGitHubAgent beh401 env0
          (Except.ok { action := "star_repo", params := pushP }) ("u") stU).2.store =
      false ∧
    (runGitHubAgent beh401 env0
        (Except.ok { action := "push_project", params := pushP }) ("u") stU).1.success =
      true := by
  refine ⟨?_, ?_, ?_⟩
  · exact ((spec_c4_amended_credential_invalid beh401 env0
      { action := "star_repo", params := pushP } ("u") stU tok0).1 rfl (by decide)
      (fun e m => rfl)).1
  · exact ((spec_c4_amended_credential_invalid beh401 env0
      { action := "star_repo", params := pushP } ("u") stU tok0).1 rfl (by decide)
      (fun e m => rfl)).2
  · exact ((spec_c4_amended_credential_invalid beh401 env0
      { action := "push_project", params := pushP } ("u") stU tok0).2 rfl rfl
      (fun n e m => rfl) (by decide)).1

/-- helper: the loop body's result entry always records the file's path. -/
theorem pushEntry_path (p : String) (r : Except String GhData) :
    (pushEntry p r).path = p := by
  cases r <;> rfl

/-- The C5 scenario API: call indices 0,2,4 are the existence GETs (file
absent), 1 and 5 are successful PUTs, 3 is a failed PUT for the second
file. -/
def beh5 : GhBehavior :=
  { api := fun n _ _ =>
      if n = 1 then ApiOutcome.okData (GhData.objV [])
      else if n = 3 then ApiOutcome.failMsg ("Validation Failed")
      else if n = 5 then ApiOutcome.okData (GhData.objV [])
      else ApiOutcome.failMsg ("Not Found"),
    pub := fun _ _ => ApiOutcome.failMsg ("offline") }

def files5 : List FileEntry :=
  [{ path := "a.txt", content := "1" }, { path := "b.txt", content := "2" },
   { path := "c.txt", content := "3" }]

def p5 : GhParams := { owner := some ("o"), repo := some ("r"), files := files5 }

/-- Claim C5: the multi-file push writes files sequentially in input order —
for every behaviour the per-file result list has the same length and paths
in the same order as the input, so one file's failure never aborts the rest
— and in the concrete scenario (f1 succeeds, f2 fails, f3 succeeds) the
dispatch succeeds with success flags `[true, false, true]` and a summary
reporting 2/3. -/
theorem spec_c5_push_per_file_results :
    (∀ (beh : GhBehavior) (owner repo : String) (files : List FileEntry)
        (cm userId : String) (s : CallSt),
      (pushProject beh owner repo files cm userId s).1.map (fun r => r.path) =
        files.map (fun f => f.path) ∧
      (pushProject beh owner repo files cm userId s).1.length = files.length) ∧
    ((pushProject beh5 ("o") ("r") files5 ("Push from Agentic Workflow") ("u")
        { store := stU, calls := [] }).1.map (fun r => r.success) =
      [true, false, true]) ∧
    (runGitHubAgent beh5 env0 (Except.ok { action := "push_project", params := p5 })
        ("u") stU).1.success = true ∧
    (runGitHubAgent beh5 env0 (Except.ok { action := "push_project", params := p5 })
        ("u") stU).1.summary =
      some ("📤 Pushed 2/3 files to **o/r**\n   ✅ a.txt\n   ❌ b.txt\n   ✅ c.txt") := by
  refine ⟨?_, ?_, ?_, ?_⟩
  · intro beh owner repo files cm userId s
    induction files generalizing s with
    | nil => exact ⟨rfl, rfl⟩
    | cons f fs ih =>
      simp only [pushProject, List.map_cons, List.length_cons, pushEntry_path]
      constructor
      · rw [(ih _).1]
      · rw [(ih _).2]
  · rfl
  · rfl
  · rfl

/-- helper: a result returned through `wrapData` has `needsAuth` unset. -/
theorem wrapData_ok (a : String) (f : GhData → String)
    (r : Except String GhData × CallSt) (res : GitHubAgentResult) :
    (wrapData a f r).1 = Except.ok res → res.needsAuth = false := by
  rcases r with ⟨er, s1⟩
  cases er with
  | ok d =>
    intro h
    simp [wrapData] at h
    rw [← h]
    rfl
  | error m =>
    intro h
    simp [wrapData] at h

/-- helper: every result the switch `return`s normally (success results and
in-switch validation failures) has `needsAuth` unset. -/
theorem execAction_ok_noAuth (beh : GhBehavior) (intent : GitHubIntent) (userId : String)
    (s : CallSt) (r : GitHubAgentResult) :
    (execAction beh intent userId s).1 = Except.ok r → r.needsAuth = false := by
  intro h
  unfold execAction at h
  by_cases h1 : intent.action = "get_profile"
  · rw [if_pos h1] at h
    exact wrapData_ok _ _ _ r h
  rw [if_neg h1] at h
  by_cases h2 : intent.action = "list_repos"
  · rw [if_pos h2] at h
    exact wrapData_ok _ _ _ r h
  rw [if_neg h2] at h
  by_cases h3 : intent.action = "list_user_repos"
  · rw [if_pos h3] at h
    by_cases h3b : jsFalsyStr intent.params.username = true
    · rw [if_pos h3b] at h
      dsimp only at h
      injection h with h9
      rw [← h9]
      rfl
    · rw [if_neg h3b] at h
      exact wrapData_ok _ _ _ r h
  rw [if_neg h3] at h
  by_cases h4 : intent.action = "get_user_profile"
  · rw [if_pos h4] at h
    by_cases h4b : jsFalsyStr intent.params.username = true
    · rw [if_pos h4b] at h
      dsimp only at h
      injection h with h9
      rw [← h9]
      rfl
    · rw [if_neg h4b] at h
      exact wrapData_ok _ _ _ r h
  rw [if_neg h4] at h
  by_cases h5 : intent.action = "create_repo"
  · rw [if_pos h5] at h
    exact wrapData_ok _ _ _ r h
  rw [if_neg h5] at h
  by_cases h6 : intent.action = "star_repo"
  · rw [if_pos h6] at h
    exact wrapData_ok _ _ _ r h
  rw [if_neg h6] at h
  by_cases h7 : intent.action = "create_issue"
  · rw [if_pos h7] at h
    exact wrapData_ok _ _ _ r h
  rw [if_neg h7] at h
  by_cases h8 : intent.action = "list_issues"
  · rw [if_pos h8] at h
    exact wrapData_ok _ _ _ r h
  rw [if_neg h8] at h
  by_cases h9c : intent.action = "get_repo"
  · rw [if_pos h9c] at h
    exact wrapData_ok _ _ _ r h
  rw [if_neg h9c] at h
  by_cases h10 : intent.action = "create_pr"
  · rw [if_pos h10] at h
    exact wrapData_ok _ _ _ r h
  rw [if_neg h10] at h
  by_cases h11 : intent.action = "push_project"
  · rw [if_pos h11] at h
    dsimp only at h
    injection h with h9
    rw [← h9]
    rfl
  rw [if_neg h11] at h
  dsimp only at h
  injection h with h9
  rw [← h9]
  rfl

/-- helper: every result the crypto switch `return`s normally is either a
success or the unknown-action failure, which carries an error message. -/
theorem execCrypto_ok_shape (beh : CryptoBehavior) (intent : CryptoIntent)
    (r : CryptoAgentResult) :
    execCrypto beh intent = Except.ok r →
    r.success = true ∨ (r.success = false ∧ r.error.isSome = true) := by
  intro h
  unfold execCrypto at h
  repeat' split at h
  any_goals (injection h with h9; rw [← h9]; simp)
  all_goals simp_all

/-- Claim C8: under every modelled provider behaviour and parse outcome, a
dispatch resolves to exactly one of the three envelope states: the GitHub
agent's result is ok (`success` with `needsAuth` unset), needsAuthorization
(`needsAuth` with `success` unset) or failed (neither), and the crypto
agent's result is ok or failed-with-message (its envelope has no
authorization state at all).  Totality of these functions embeds the
absence of unhandled rejections: every thrown failure is routed through an
`Except` that the dispatchers catch. -/
theorem spec_c8_uniform_outcome_envelope :
    (∀ (beh : GhBehavior) (env : OAuthEnv) (po : Except String GitHubIntent)
        (userId : String) (st : Store),
      ((runGitHubAgent beh env po userId st).1.success = true ∧
        (runGitHubAgent beh env po userId st).1.needsAuth = false) ∨
      ((runGitHubAgent beh env po userId st).1.success = false ∧
        (runGitHubAgent beh env po userId st).1.needsAuth = true) ∨
      ((runGitHubAgent beh env po userId st).1.success = false ∧
        (runGitHubAgent beh env po userId st).1.needsAuth = false)) ∧
    (∀ (beh : CryptoBehavior) (po : Except String CryptoIntent),
      (runCryptoAgent beh po).success = true ∨
      ((runCryptoAgent beh po).success = false ∧
        ((runCryptoAgent beh po).error).isSome = true)) := by
  constructor
  · intro beh env po userId st
    cases po with
    | error m => simp [runGitHubAgent]
    | ok intent =>
      by_cases hg : intent.action ∉ PUBLIC_ACTIONS ∧ isConnected userId st = false
      · right; left
        simp [runGitHubAgent, hg.1, hg.2, needsAuthRes]
      · rcases hE : execAction beh intent userId { store := st, calls := [] } with ⟨er, s1⟩
        cases er with
        | ok res =>
          have hna := execAction_ok_noAuth beh intent userId { store := st, calls := [] }
            res (by rw [hE])
          cases hres : res.success with
          | true =>
            left
            simp [runGitHubAgent, hg, hE, hna, hres]
          | false =>
            right; right
            simp [runGitHubAgent, hg, hE, hna, hres]
        | error msg =>
          by_cases hm :
              containsSub msg ("token expired") = true ∨
                containsSub msg ("not connected") = true
          · right; left
            simp [runGitHubAgent, hg, hE, hm, sessionExpiredRes]
          · right; right
            simp [runGitHubAgent, hg, hE, hm, failRes]
  · intro beh po
    cases po with
    | error m => simp [runCryptoAgent]
    | ok intent =>
      cases hE : execCrypto beh intent with
      | ok r =>
        have := execCrypto_ok_shape beh intent r hE
        simpa [runCryptoAgent, hE] using this
      | error m =>
        simp [runCryptoAgent, hE]

end AW
